import Mathlib

/-!
Verification of the persistence and validation layer of the
dev-128-prog-project-2 repository (file src/database_operations.py).

The Python module is shallowly embedded: each definition below is a direct
translation of the corresponding Python function, with SQLite state made
explicit as a Lean structure.  Machine strings are Lean Strings; Python
string truthiness (an empty string is falsy) and str.strip are modelled
explicitly.
-/

/-- Model of Python str.strip(): drop leading and trailing whitespace
characters.  Implemented structurally over the character list so that it
evaluates by kernel reduction. -/
def pyStrip (s : String) : String :=
  ⟨((s.data.dropWhile Char.isWhitespace).reverse.dropWhile Char.isWhitespace).reverse⟩

/-- Translation of the state_codes list literal inside validate_person_data
(database_operations.py lines 238-242). -/
def state_codes : List String :=
  ["AK", "AL", "AR", "AZ", "CA", "CO", "CT", "DC", "DE", "FL",
   "GA", "HI", "IA", "ID", "IL", "IN", "KS", "KY", "LA", "MA", "MD", "ME",
   "MI", "MN", "MO", "MS", "MT", "NC", "ND", "NE", "NH", "NJ", "NM", "NV",
   "NY", "OH", "OK", "OR", "PA", "RI", "SC", "SD", "TN", "TX", "UT", "VA",
   "VT", "WA", "WI", "WV", "WY"]

/-- Translation of the Python guard pattern used for every required field:
the Python test is falsy-or-blank, written as not f or not f.strip(). -/
def isBlankCheck (s : String) : Bool :=
  s == "" || pyStrip s == ""

/-- Translation of validate_person_data (database_operations.py lines
206-271): the chain of if statements, in source order, each returning on
first failure. -/
def validate_person_data
    (first_name last_name email job_title street city state postal : String) :
    Bool × String :=
  if isBlankCheck first_name then (false, "First name is required")
  else if isBlankCheck last_name then (false, "Last name is required")
  else if isBlankCheck email then (false, "Email is required")
  else if isBlankCheck job_title then (false, "Job title is required")
  else if isBlankCheck street then (false, "Street address is required")
  else if isBlankCheck city then (false, "City is required")
  else if isBlankCheck state || !(state_codes.contains state) then
    (false, "Please enter a valid USPS state abbreviation")
  else if isBlankCheck postal then (false, "Please enter a postal/zip code")
  else (true, "")

/-- Candidate record as collected by the caller: the ten person fields
without the id, in the canonical column order of the schema. -/
structure PersonFields where
  first_name : String
  last_name : String
  email : String
  job_title : String
  street : String
  street2 : String
  city : String
  state : String
  postal : String
  notes : String
deriving DecidableEq

/-- Validation as invoked on a full candidate record: only the eight listed
fields are passed to validate_person_data, exactly as at the call sites in
people_gui.py (lines 241 and 457); street2 and notes are not passed. -/
def validate_fields (p : PersonFields) : Bool × String :=
  validate_person_data p.first_name p.last_name p.email p.job_title
    p.street p.city p.state p.postal

theorem isBlankCheck_iff (s : String) : isBlankCheck s = true ↔ pyStrip s = "" := by
  constructor
  · intro h
    rcases (Bool.or_eq_true _ _).mp h with h1 | h1
    · have h2 : s = "" := by simpa using h1
      subst h2; rfl
    · simpa using h1
  · intro h
    simp [isBlankCheck, h]

theorem isBlankCheck_false_iff (s : String) :
    isBlankCheck s = false ↔ pyStrip s ≠ "" := by
  rw [Bool.eq_false_iff, Ne, isBlankCheck_iff]

theorem state_codes_not_blank : ∀ s ∈ state_codes, isBlankCheck s = false := by
  decide

theorem state_check_false_iff (s : String) :
    (isBlankCheck s || !(state_codes.contains s)) = false ↔ s ∈ state_codes := by
  constructor
  · intro h
    have h2 : state_codes.contains s = true := by
      rcases Bool.or_eq_false_iff.mp h with ⟨-, h2⟩
      simpa using h2
    exact List.elem_iff.mp h2
  · intro h
    have h1 := state_codes_not_blank s h
    have h2 : state_codes.contains s = true := List.elem_iff.mpr h
    rw [h1, h2]
    rfl

/-- Claim C1: validate_fields returns (true, "") exactly when the seven
required fields first_name, last_name, email, job_title, street, city,
postal are non-blank after stripping and state is a member of the fixed
51-element USPS code set; street2 and notes never affect the result. -/
theorem C1_validate_accepts_iff (p : PersonFields) :
    (validate_fields p = (true, "") ↔
      (pyStrip p.first_name ≠ "" ∧ pyStrip p.last_name ≠ "" ∧
       pyStrip p.email ≠ "" ∧ pyStrip p.job_title ≠ "" ∧
       pyStrip p.street ≠ "" ∧ pyStrip p.city ≠ "" ∧
       pyStrip p.postal ≠ "" ∧ p.state ∈ state_codes)) ∧
    (∀ s2 n2, validate_fields { p with street2 := s2, notes := n2 } =
      validate_fields p) := by
  constructor
  · unfold validate_fields validate_person_data
    split_ifs with h1 h2 h3 h4 h5 h6 h7 h8
    · constructor
      · intro hcontra; cases hcontra
      · rintro ⟨hfn, -⟩
        exact absurd ((isBlankCheck_iff _).mp h1) hfn
    · constructor
      · intro hcontra; cases hcontra
      · rintro ⟨-, hln, -⟩
        exact absurd ((isBlankCheck_iff _).mp h2) hln
    · constructor
      · intro hcontra; cases hcontra
      · rintro ⟨-, -, hem, -⟩
        exact absurd ((isBlankCheck_iff _).mp h3) hem
    · constructor
      · intro hcontra; cases hcontra
      · rintro ⟨-, -, -, hjt, -⟩
        exact absurd ((isBlankCheck_iff _).mp h4) hjt
    · constructor
      · intro hcontra; cases hcontra
      · rintro ⟨-, -, -, -, hst, -⟩
        exact absurd ((isBlankCheck_iff _).mp h5) hst
    · constructor
      · intro hcontra; cases hcontra
      · rintro ⟨-, -, -, -, -, hct, -⟩
        exact absurd ((isBlankCheck_iff _).mp h6) hct
    · constructor
      · intro hcontra; cases hcontra
      · rintro ⟨-, -, -, -, -, -, -, hmem⟩
        rw [(state_check_false_iff _).mpr hmem] at h7
        simp at h7
    · constructor
      · intro hcontra; cases hcontra
      · rintro ⟨-, -, -, -, -, -, hpo, -⟩
        exact absurd ((isBlankCheck_iff _).mp h8) hpo
    · constructor
      · intro _
        refine ⟨(isBlankCheck_false_iff _).mp (by simpa using h1),
          (isBlankCheck_false_iff _).mp (by simpa using h2),
          (isBlankCheck_false_iff _).mp (by simpa using h3),
          (isBlankCheck_false_iff _).mp (by simpa using h4),
          (isBlankCheck_false_iff _).mp (by simpa using h5),
          (isBlankCheck_false_iff _).mp (by simpa using h6),
          (isBlankCheck_false_iff _).mp (by simpa using h8),
          (state_check_false_iff _).mp (by simpa using h7)⟩
      · intro _; rfl
  · intro s2 n2
    rfl

/-- Concrete instance for C1: the fully valid example record from the spec is
accepted, via the iff at a concrete input. -/
theorem C1_validate_accepts_iff_witness :
    validate_fields
      { first_name := "Jane", last_name := "Doe", email := "jane@x.com",
        job_title := "Engineer", street := "1 Main St", street2 := "",
        city := "Troy", state := "NY", postal := "12180", notes := "" } =
      (true, "") :=
  (C1_validate_accepts_iff _).1.mpr
    ⟨by decide, by decide, by decide, by decide, by decide, by decide,
     by decide, by decide⟩

/-- Rule table written from the spec wording of section 4.1: the eight checks
in their fixed order, each paired with its message.  This is the spec-side
definition, to be compared with the translated validate_person_data. -/
def specRuleTable
    (first_name last_name email job_title street city state postal : String) :
    List (Bool × String) :=
  [(isBlankCheck first_name, "First name is required"),
   (isBlankCheck last_name, "Last name is required"),
   (isBlankCheck email, "Email is required"),
   (isBlankCheck job_title, "Job title is required"),
   (isBlankCheck street, "Street address is required"),
   (isBlankCheck city, "City is required"),
   (isBlankCheck state || !(state_codes.contains state),
     "Please enter a valid USPS state abbreviation"),
   (isBlankCheck postal, "Please enter a postal/zip code")]

/-- Spec-side evaluator: scan the rule table in order and return false with
the message of the earliest failing rule, or (true, "") when no rule fails.
Only one message is ever produced. -/
def specFirstFailure : List (Bool × String) → Bool × String
  | [] => (true, "")
  | (b, m) :: rest => if b then (false, m) else specFirstFailure rest

/-- Claim C2: validate_person_data checks its rules in the fixed order
first_name, last_name, email, job_title, street, city, state, postal and
returns on the first failure with exactly the corresponding message; hence
for an input with several violated rules the message is that of the earliest
rule in the order, and only one message is ever returned. -/
theorem C2_validate_first_failure_order
    (first_name last_name email job_title street city state postal : String) :
    validate_person_data first_name last_name email job_title street city
        state postal =
      specFirstFailure (specRuleTable first_name last_name email job_title
        street city state postal) := by
  simp only [validate_person_data, specRuleTable, specFirstFailure]

/-- Claim C10: validate_person_data tests state membership on the untrimmed
input string: whenever state is not character-for-character equal to one of
the 51 codes, the result is (false, "Please enter a valid USPS state
abbreviation"), even when every other field is valid. -/
theorem C10_state_membership_untrimmed
    (first_name last_name email job_title street city state postal : String)
    (h1 : pyStrip first_name ≠ "") (h2 : pyStrip last_name ≠ "")
    (h3 : pyStrip email ≠ "") (h4 : pyStrip job_title ≠ "")
    (h5 : pyStrip street ≠ "") (h6 : pyStrip city ≠ "")
    (_h7 : pyStrip postal ≠ "") (hstate : state ∉ state_codes) :
    validate_person_data first_name last_name email job_title street city
        state postal =
      (false, "Please enter a valid USPS state abbreviation") := by
  have hb1 := (isBlankCheck_false_iff _).mpr h1
  have hb2 := (isBlankCheck_false_iff _).mpr h2
  have hb3 := (isBlankCheck_false_iff _).mpr h3
  have hb4 := (isBlankCheck_false_iff _).mpr h4
  have hb5 := (isBlankCheck_false_iff _).mpr h5
  have hb6 := (isBlankCheck_false_iff _).mpr h6
  have hc : state_codes.contains state = false :=
    Bool.eq_false_iff.mpr (fun hmem => hstate (List.elem_iff.mp hmem))
  unfold validate_person_data
  rw [hb1, hb2, hb3, hb4, hb5, hb6, hc]
  simp

/-- Concrete instance for C10: a valid code padded with trailing whitespace,
"NY ", is rejected with the state message although every other field is
valid. -/
theorem C10_state_membership_untrimmed_witness :
    validate_person_data "Jane" "Doe" "jane@x.com" "Engineer" "1 Main St"
        "Troy" "NY " "12180" =
      (false, "Please enter a valid USPS state abbreviation") :=
  C10_state_membership_untrimmed "Jane" "Doe" "jane@x.com" "Engineer"
    "1 Main St" "Troy" "NY " "12180" (by decide) (by decide) (by decide)
    (by decide) (by decide) (by decide) (by decide) (by decide)

/-- Durable row of the people table: the eleven columns of the schema in
declaration order (database_operations.py lines 31-45), id first. -/
structure Row where
  id : Nat
  first_name : String
  last_name : String
  email : String
  job_title : String
  street : String
  street2 : String
  city : String
  state : String
  postal : String
  notes : String
deriving DecidableEq

/-- State of the people table.  rows holds the stored rows; nextId models
the AUTOINCREMENT sequence of the id column (sqlite_sequence): the rowid
the next INSERT will receive.  A fresh table starts at nextId = 1. -/
structure Store where
  rows : List Row
  nextId : Nat
deriving DecidableEq

/-- The table created by the CREATE TABLE statement: no rows, first
AUTOINCREMENT id is 1. -/
def emptyStore : Store :=
  { rows := [], nextId := 1 }

/-- Translation of create_database (database_operations.py lines 21-48):
connecting creates the database file if absent, and CREATE TABLE IF NOT
EXISTS creates the table only when it does not exist, leaving an existing
table untouched.  The absent file/table is modelled as none. -/
def create_database (db : Option Store) : Option Store :=
  match db with
  | none => some emptyStore
  | some s => some s

/-- Translation of add_person (database_operations.py lines 51-86): INSERT
the ten field values, with the id assigned by AUTOINCREMENT; returns the
new store together with cursor.lastrowid. -/
def add_person (s : Store)
    (first_name last_name email job_title street street2 city state postal
      notes : String) : Store × Nat :=
  let person_id := s.nextId
  ({ rows := s.rows ++
       [{ id := person_id, first_name := first_name, last_name := last_name,
          email := email, job_title := job_title, street := street,
          street2 := street2, city := city, state := state, postal := postal,
          notes := notes }],
     nextId := person_id + 1 },
   person_id)

/-- Scan order of the table: SELECT reads rows in rowid (id) order.  Total
Boolean comparison on ids. -/
def idLe (a b : Row) : Bool :=
  decide (a.id ≤ b.id)

/-- The ORDER BY last_name, first_name comparison, under the default BINARY
collation (lexicographic on the code points). -/
def nameLe (a b : Row) : Bool :=
  decide (a.last_name < b.last_name) ||
    (a.last_name == b.last_name && decide (a.first_name ≤ b.first_name))

/-- The same comparison on the projected result tuples
(id, first_name, last_name, email) returned by get_all_people. -/
def listingLe (a b : Nat × String × String × String) : Bool :=
  decide (a.2.2.1 < b.2.2.1) ||
    (a.2.2.1 == b.2.2.1 && decide (a.2.1 ≤ b.2.1))

/-- Translation of get_all_people (database_operations.py lines 89-112):
SELECT id, first_name, last_name, email FROM people ORDER BY last_name,
first_name.  The table is scanned in rowid order and the scan is sorted by
(last_name, first_name). -/
def get_all_people (s : Store) : List (Nat × String × String × String) :=
  (((s.rows.mergeSort idLe).mergeSort nameLe).map
    (fun r => (r.id, r.first_name, r.last_name, r.email)))

/-- Translation of get_person_by_id (database_operations.py lines 115-136):
SELECT * FROM people WHERE id = ? with fetchone, i.e. the first matching
row in scan order, or none when no row matches. -/
def get_person_by_id (s : Store) (person_id : Nat) : Option Row :=
  s.rows.find? (fun r => r.id == person_id)

/-- Translation of update_person (database_operations.py lines 139-177):
UPDATE every column except id on the rows WHERE id = ?; cursor.rowcount is
the number of matched rows and the function returns rowcount > 0 together
with the new store. -/
def update_person (s : Store) (person_id : Nat)
    (first_name last_name email job_title street street2 city state postal
      notes : String) : Store × Bool :=
  let rows_affected := s.rows.countP (fun r => r.id == person_id)
  ({ rows := s.rows.map (fun r =>
       if r.id == person_id then
         { r with
           first_name := first_name
           last_name := last_name
           email := email
           job_title := job_title
           street := street
           street2 := street2
           city := city
           state := state
           postal := postal
           notes := notes }
       else r),
     nextId := s.nextId },
   decide (0 < rows_affected))

/-- Translation of delete_person (database_operations.py lines 180-203):
DELETE FROM people WHERE id = ?; cursor.rowcount is the number of removed
rows and the function returns rowcount > 0 together with the new store.
Deletion does not touch the AUTOINCREMENT sequence. -/
def delete_person (s : Store) (person_id : Nat) : Store × Bool :=
  let rows_affected := s.rows.countP (fun r => r.id == person_id)
  ({ rows := s.rows.filter (fun r => !(r.id == person_id)),
     nextId := s.nextId },
   decide (0 < rows_affected))

/-- Column of a table schema: its name and whether it carries a NOT NULL
constraint. -/
structure Column where
  name : String
  notNull : Bool
deriving DecidableEq

/-- Translation of the CREATE TABLE statement in create_database
(database_operations.py lines 31-45): the eleven columns in declaration
order with their NOT NULL constraints as written.  The id column is the
INTEGER PRIMARY KEY AUTOINCREMENT rowid alias (no explicit NOT NULL
keyword in the source). -/
def peopleColumns : List Column :=
  [{ name := "id", notNull := false },
   { name := "first_name", notNull := true },
   { name := "last_name", notNull := true },
   { name := "email", notNull := true },
   { name := "job_title", notNull := true },
   { name := "street", notNull := true },
   { name := "street2", notNull := false },
   { name := "city", notNull := true },
   { name := "state", notNull := true },
   { name := "postal", notNull := true },
   { name := "notes", notNull := false }]

/-- Whether the named column of a schema accepts NULL: true exactly when
the column exists and has no NOT NULL constraint. -/
def columnIsNullable (cols : List Column) (n : String) : Bool :=
  match cols.find? (fun c => c.name == n) with
  | some c => !c.notNull
  | none => false

/-- SQLite's NOT NULL enforcement on a candidate row, given positionally
(none is SQL NULL): every NOT NULL column must receive a present value,
else the INSERT or UPDATE is rejected. -/
def rowRespectsNotNull (cols : List Column) (vals : List (Option String)) :
    Bool :=
  (cols.zip vals).all (fun cv => cv.2.isSome || !cv.1.notNull)

/-- Single public mutating operation of the store, used to reason about
arbitrary operation sequences. -/
inductive Op where
  | create (first_name last_name email job_title street street2 city state
      postal notes : String)
  | update (person_id : Nat) (first_name last_name email job_title street
      street2 city state postal notes : String)
  | delete (person_id : Nat)

/-- Apply one operation; the optional Nat is the id returned when the
operation is a create. -/
def applyOp (s : Store) : Op → Store × Option Nat
  | Op.create fn ln em jt st st2 ct sta po no =>
      let r := add_person s fn ln em jt st st2 ct sta po no
      (r.1, some r.2)
  | Op.update pid fn ln em jt st st2 ct sta po no =>
      ((update_person s pid fn ln em jt st st2 ct sta po no).1, none)
  | Op.delete pid => ((delete_person s pid).1, none)

/-- Run a sequence of operations, collecting the ids handed out by the
creates, in order. -/
def runOps (s : Store) : List Op → Store × List Nat
  | [] => (s, [])
  | op :: rest =>
      let step := applyOp s op
      let r := runOps step.1 rest
      (r.1, step.2.toList ++ r.2)

/-- Counterexample to claim C3 as stated: in the schema created by
create_database the email column carries a NOT NULL constraint, so it is
not nullable, and a concrete row whose email value is NULL fails the NOT
NULL checks. -/
theorem C3_email_nullable_counterexample :
    columnIsNullable peopleColumns "email" = false ∧
    rowRespectsNotNull peopleColumns
      [some "1", some "Jane", some "Doe", none, some "Engineer",
       some "1 Main St", none, some "Troy", some "NY", some "12180", none] =
      false := by
  decide

/-- Claim C3 amended: the durable table stores the email column as NOT
NULL, so a Person row cannot exist with email absent (NULL): any candidate
row whose fourth (email) value is NULL is rejected by the NOT NULL
enforcement, whatever the other values are. -/
theorem C3_email_stored_not_null (v0 v1 v2 : Option String)
    (rest : List (Option String)) :
    columnIsNullable peopleColumns "email" = false ∧
    rowRespectsNotNull peopleColumns (v0 :: v1 :: v2 :: none :: rest) =
      false := by
  refine ⟨by decide, ?_⟩
  simp [rowRespectsNotNull, peopleColumns]

/-- Claim C4: on any store whose rows all have ids below the AUTOINCREMENT
sequence value (true of every store the operations produce), add_person
followed by get_person_by_id on the returned id yields the full record
with exactly the input fields, in canonical column order, under the fresh
id. -/
theorem C4_create_then_get (s : Store)
    (fn ln em jt st st2 ct sta po no : String)
    (h : ∀ r ∈ s.rows, r.id < s.nextId) :
    get_person_by_id (add_person s fn ln em jt st st2 ct sta po no).1
        (add_person s fn ln em jt st st2 ct sta po no).2 =
      some { id := (add_person s fn ln em jt st st2 ct sta po no).2,
             first_name := fn, last_name := ln, email := em, job_title := jt,
             street := st, street2 := st2, city := ct, state := sta,
             postal := po, notes := no } := by
  have hnone : s.rows.find? (fun r => r.id == s.nextId) = none :=
    List.find?_eq_none.mpr (fun r hr => by
      simpa using Nat.ne_of_lt (h r hr))
  simp [get_person_by_id, add_person, hnone]

/-- Concrete instance for C4: creating the spec's example record in the
fresh store and reading it back by the returned id. -/
theorem C4_create_then_get_witness :
    get_person_by_id
        (add_person emptyStore "Jane" "Doe" "jane@x.com" "Engineer"
          "1 Main St" "" "Troy" "NY" "12180" "").1
        (add_person emptyStore "Jane" "Doe" "jane@x.com" "Engineer"
          "1 Main St" "" "Troy" "NY" "12180" "").2 =
      some { id := (add_person emptyStore "Jane" "Doe" "jane@x.com"
               "Engineer" "1 Main St" "" "Troy" "NY" "12180" "").2,
             first_name := "Jane", last_name := "Doe", email := "jane@x.com",
             job_title := "Engineer", street := "1 Main St", street2 := "",
             city := "Troy", state := "NY", postal := "12180", notes := "" } :=
  C4_create_then_get emptyStore "Jane" "Doe" "jane@x.com" "Engineer"
    "1 Main St" "" "Troy" "NY" "12180" "" (by simp [emptyStore])

/-- Claim C9: create_database is idempotent: calling it twice equals
calling it once, an existing store is returned unaltered (rows and
sequence untouched, no truncation), and the absent file/table case creates
the empty table. -/
theorem C9_initialize_idempotent (db : Option Store) :
    create_database (create_database db) = create_database db ∧
    (∀ s, db = some s → create_database db = some s) ∧
    create_database none = some emptyStore := by
  refine ⟨?_, ?_, rfl⟩
  · cases db <;> rfl
  · intro s h
    subst h
    rfl

/-- Sample stored row used by the concrete witness instances below. -/
def sampleRow : Row :=
  { id := 1
    first_name := "Jane"
    last_name := "Doe"
    email := "jane@x.com"
    job_title := "Engineer"
    street := "1 Main St"
    street2 := ""
    city := "Troy"
    state := "NY"
    postal := "12180"
    notes := "" }

/-- Sample second stored row used by the concrete witness instances. -/
def sampleRow2 : Row :=
  { id := 2
    first_name := "John"
    last_name := "Smith"
    email := "john@x.com"
    job_title := "Writer"
    street := "2 Oak Ave"
    street2 := "Apt 3"
    city := "Albany"
    state := "NY"
    postal := "12201"
    notes := "friend" }

/-- Sample one-row store used by the concrete witness instances. -/
def sampleStore : Store :=
  { rows := [sampleRow], nextId := 2 }

/-- Concrete instance for C9: double initialization on an existing one-row
store, and preservation of that store. -/
theorem C9_initialize_idempotent_witness :
    create_database (create_database (some sampleStore)) =
      create_database (some sampleStore) ∧
    create_database (some sampleStore) = some sampleStore :=
  ⟨(C9_initialize_idempotent (some sampleStore)).1,
   (C9_initialize_idempotent (some sampleStore)).2.1 sampleStore rfl⟩

/-- Claim C7: update_person on an id matching no existing row returns
false (and, being a total function, raises nothing) and leaves the store
unchanged: every row and the id sequence are exactly as before. -/
theorem C7_update_missing_id (s : Store) (person_id : Nat)
    (fn ln em jt st st2 ct sta po no : String)
    (h : ∀ r ∈ s.rows, r.id ≠ person_id) :
    update_person s person_id fn ln em jt st st2 ct sta po no = (s, false) := by
  simp only [update_person]
  have hcount : s.rows.countP (fun r => r.id == person_id) = 0 :=
    List.countP_eq_zero.mpr (fun r hr => by simpa using h r hr)
  have hmap : s.rows.map (fun r =>
      if r.id == person_id then
        { id := r.id, first_name := fn, last_name := ln, email := em,
          job_title := jt, street := st, street2 := st2, city := ct,
          state := sta, postal := po, notes := no }
      else r) = s.rows.map id :=
    List.map_congr_left (fun r hr => if_neg (by simpa using h r hr))
  rw [hmap, List.map_id, hcount]
  rfl

/-- Concrete instance for C7: updating the absent id 5 in the one-row
sample store fails and changes nothing. -/
theorem C7_update_missing_id_witness :
    update_person sampleStore 5 "X" "Y" "x@y.com" "Job" "3 Elm St" ""
        "Utica" "WA" "99999" "" = (sampleStore, false) :=
  C7_update_missing_id sampleStore 5 "X" "Y" "x@y.com" "Job" "3 Elm St" ""
    "Utica" "WA" "99999" "" (by decide)

/-- Claim C8: delete_person followed by get_person_by_id on the same id
yields none; delete_person on a never-existing or already-deleted id
returns false with the store unchanged; delete_person on an existing id
returns true. -/
theorem C8_delete_then_get (s : Store) (person_id : Nat) :
    get_person_by_id (delete_person s person_id).1 person_id = none ∧
    ((∀ r ∈ s.rows, r.id ≠ person_id) →
      delete_person s person_id = (s, false)) ∧
    ((∃ r ∈ s.rows, r.id = person_id) →
      (delete_person s person_id).2 = true) := by
  refine ⟨?_, ?_, ?_⟩
  · simp only [delete_person, get_person_by_id]
    apply List.find?_eq_none.mpr
    intro r hr
    have h2 := (List.mem_filter.mp hr).2
    simpa using h2
  · intro h
    simp only [delete_person]
    have hcount : s.rows.countP (fun r => r.id == person_id) = 0 :=
      List.countP_eq_zero.mpr (fun r hr => by simpa using h r hr)
    have hfilter : s.rows.filter (fun r => !(r.id == person_id)) = s.rows :=
      List.filter_eq_self.mpr (fun r hr => by simpa using h r hr)
    rw [hfilter, hcount]
    rfl
  · rintro ⟨r, hr, hid⟩
    have hpos : 0 < s.rows.countP (fun r => r.id == person_id) :=
      List.countP_pos_iff.mpr ⟨r, hr, by simpa using hid⟩
    simp only [delete_person]
    exact decide_eq_true hpos

/-- Concrete instance for C8: deleting id 1 from the sample store then
reading id 1 yields none; deleting the absent id 5 returns false and
changes nothing; deleting the present id 1 returns true. -/
theorem C8_delete_then_get_witness :
    get_person_by_id (delete_person sampleStore 1).1 1 = none ∧
    delete_person sampleStore 5 = (sampleStore, false) ∧
    (delete_person sampleStore 1).2 = true :=
  ⟨(C8_delete_then_get sampleStore 1).1,
   (C8_delete_then_get sampleStore 5).2.1 (by decide),
   (C8_delete_then_get sampleStore 1).2.2 ⟨sampleRow, by decide, by decide⟩⟩

theorem applyOp_nextId_le (s : Store) (op : Op) :
    s.nextId ≤ (applyOp s op).1.nextId := by
  cases op <;>
    simp [applyOp, add_person, update_person, delete_person]

theorem applyOp_create_snd (s : Store)
    (fn ln em jt st st2 ct sta po no : String) :
    (applyOp s (Op.create fn ln em jt st st2 ct sta po no)).2 =
      some s.nextId :=
  rfl

theorem applyOp_create_nextId (s : Store)
    (fn ln em jt st st2 ct sta po no : String) :
    (applyOp s (Op.create fn ln em jt st st2 ct sta po no)).1.nextId =
      s.nextId + 1 :=
  rfl

theorem runOps_ids_lb (ops : List Op) (s : Store) :
    ∀ i ∈ (runOps s ops).2, s.nextId ≤ i := by
  induction ops generalizing s with
  | nil =>
    intro i hi
    simp [runOps] at hi
  | cons op rest ih =>
    intro i hi
    simp only [runOps] at hi
    rcases List.mem_append.mp hi with h1 | h1
    · cases op with
      | create fn ln em jt st st2 ct sta po no =>
        rw [applyOp_create_snd] at h1
        simp at h1
        omega
      | update pid fn ln em jt st st2 ct sta po no =>
        simp [applyOp] at h1
      | delete pid =>
        simp [applyOp] at h1
    · exact le_trans (applyOp_nextId_le s op) (ih (applyOp s op).1 i h1)

theorem runOps_ids_pairwise (ops : List Op) (s : Store) :
    (runOps s ops).2.Pairwise (fun a b => a < b) := by
  induction ops generalizing s with
  | nil => simp [runOps]
  | cons op rest ih =>
    simp only [runOps]
    cases op with
    | create fn ln em jt st st2 ct sta po no =>
      rw [applyOp_create_snd]
      refine List.pairwise_cons.mpr ⟨?_, ih _⟩
      intro j hj
      have hlb := runOps_ids_lb rest _ j hj
      rw [applyOp_create_nextId] at hlb
      omega
    | update pid fn ln em jt st st2 ct sta po no =>
      simpa [applyOp] using ih _
    | delete pid =>
      simpa [applyOp] using ih _

/-- Claim C5: along any operation sequence starting from the fresh table,
the ids handed out by the creates are strictly increasing in order of
assignment: each is strictly greater than every previously assigned id,
all assigned ids are distinct, and an id freed by a delete is never handed
out again (deletion does not rewind the AUTOINCREMENT sequence). -/
theorem C5_ids_monotone_unique (ops : List Op) :
    (runOps emptyStore ops).2.Pairwise (fun a b => a < b) ∧
    (runOps emptyStore ops).2.Nodup :=
  ⟨runOps_ids_pairwise ops emptyStore,
   (runOps_ids_pairwise ops emptyStore).imp (fun h => Nat.ne_of_lt h)⟩

theorem nameLe_trans : ∀ a b c : Row, nameLe a b → nameLe b c → nameLe a c := by
  intro a b c h1 h2
  simp only [nameLe, Bool.or_eq_true, Bool.and_eq_true, decide_eq_true_eq,
    beq_iff_eq] at h1 h2 ⊢
  rcases h1 with h1 | ⟨h1e, h1f⟩
  · rcases h2 with h2 | ⟨h2e, h2f⟩
    · exact Or.inl (lt_trans h1 h2)
    · exact Or.inl (lt_of_lt_of_eq h1 h2e)
  · rcases h2 with h2 | ⟨h2e, h2f⟩
    · exact Or.inl (lt_of_eq_of_lt h1e h2)
    · exact Or.inr ⟨h1e.trans h2e, le_trans h1f h2f⟩

theorem nameLe_total : ∀ a b : Row, nameLe a b || nameLe b a := by
  intro a b
  simp only [nameLe, Bool.or_eq_true, Bool.and_eq_true, decide_eq_true_eq,
    beq_iff_eq]
  rcases lt_trichotomy a.last_name b.last_name with h | h | h
  · exact Or.inl (Or.inl h)
  · rcases le_total a.first_name b.first_name with hf | hf
    · exact Or.inl (Or.inr ⟨h, hf⟩)
    · exact Or.inr (Or.inr ⟨h.symm, hf⟩)
  · exact Or.inr (Or.inl h)

theorem idLe_trans : ∀ a b c : Row, idLe a b → idLe b c → idLe a c := by
  intro a b c h1 h2
  simp only [idLe, decide_eq_true_eq] at h1 h2 ⊢
  omega

theorem idLe_total : ∀ a b : Row, idLe a b || idLe b a := by
  intro a b
  simp only [idLe, Bool.or_eq_true, decide_eq_true_eq]
  omega

theorem mergeSort_idLe_canonical (xs ys : List Row)
    (hnodup : xs.Pairwise (fun a b => a.id ≠ b.id))
    (hperm : xs.Perm ys) :
    xs.mergeSort idLe = ys.mergeSort idLe := by
  haveI : IsAntisymm Row (fun a b => a.id < b.id) :=
    ⟨fun a b h1 h2 => absurd h2 (Nat.lt_asymm h1)⟩
  have hsymm : ∀ {x y : Row}, x.id ≠ y.id → y.id ≠ x.id :=
    fun h => Ne.symm h
  have hnodup2 : ys.Pairwise (fun a b => a.id ≠ b.id) :=
    (List.Perm.pairwise_iff hsymm hperm).mp hnodup
  have hnx : (xs.mergeSort idLe).Pairwise (fun a b => a.id ≠ b.id) :=
    (List.Perm.pairwise_iff hsymm (List.mergeSort_perm xs idLe)).mpr hnodup
  have hny : (ys.mergeSort idLe).Pairwise (fun a b => a.id ≠ b.id) :=
    (List.Perm.pairwise_iff hsymm (List.mergeSort_perm ys idLe)).mpr hnodup2
  have hltx : (xs.mergeSort idLe).Pairwise (fun a b => a.id < b.id) :=
    ((List.sorted_mergeSort idLe_trans idLe_total xs).and hnx).imp
      (fun h => lt_of_le_of_ne (by simpa [idLe] using h.1) h.2)
  have hlty : (ys.mergeSort idLe).Pairwise (fun a b => a.id < b.id) :=
    ((List.sorted_mergeSort idLe_trans idLe_total ys).and hny).imp
      (fun h => lt_of_le_of_ne (by simpa [idLe] using h.1) h.2)
  have hps : (xs.mergeSort idLe).Perm (ys.mergeSort idLe) :=
    (List.mergeSort_perm xs idLe).trans
      (hperm.trans (List.mergeSort_perm ys idLe).symm)
  exact List.eq_of_perm_of_sorted hps hltx hlty

/-- Claim C6: the listing returned by get_all_people is always sorted
ascending by last_name with ties broken by ascending first_name, and it is
canonical: two stores holding the same multiset of rows (ids distinct, as
the primary key guarantees) produce the identical listing, regardless of
the order the rows were inserted in. -/
theorem C6_listing_sorted_and_canonical (s t : Store)
    (hnodup : s.rows.Pairwise (fun a b => a.id ≠ b.id))
    (hperm : s.rows.Perm t.rows) :
    (get_all_people s).Pairwise (fun a b => listingLe a b = true) ∧
    get_all_people s = get_all_people t := by
  constructor
  · unfold get_all_people
    rw [List.pairwise_map]
    exact List.sorted_mergeSort nameLe_trans nameLe_total
      (s.rows.mergeSort idLe)
  · unfold get_all_people
    rw [mergeSort_idLe_canonical s.rows t.rows hnodup hperm]

/-- Concrete instance for C6: the two-row store listed in either insertion
order gives the same sorted listing. -/
theorem C6_listing_sorted_and_canonical_witness :
    (get_all_people { rows := [sampleRow, sampleRow2], nextId := 3 }).Pairwise
      (fun a b => listingLe a b = true) ∧
    get_all_people { rows := [sampleRow, sampleRow2], nextId := 3 } =
      get_all_people { rows := [sampleRow2, sampleRow], nextId := 3 } :=
  C6_listing_sorted_and_canonical
    { rows := [sampleRow, sampleRow2], nextId := 3 }
    { rows := [sampleRow2, sampleRow], nextId := 3 }
    (by decide)
    (List.Perm.swap sampleRow2 sampleRow [])
